import Mathlib

/-!
Shallow embedding of the `infiquetra-aws-infra` repository: the GitHub OIDC
bootstrap stack (`github_oidc_bootstrap/github_oidc_stack.py`), the AWS
Organizations stack (`infiquetra_organizations/organization_stack.py`) and the
SSO permission-set stack (`infiquetra_organizations/sso_stack.py`).

Stacks are pure value constructions: each Python builder method becomes a Lean
function from its inputs (account id, region, owner/repo configuration,
environment mapping) to the configuration values it declares.  CloudFormation
token placeholders (`cdk.Aws.ACCOUNT_ID`, `cdk.Aws.REGION`, CFN refs) are
modelled as explicit string parameters or symbolic references.
-/

namespace Infiquetra

/-- A value that in the Python/JSON source is either a single string or a list
of strings (e.g. `"Action": "*"` versus `"Action": [...]`). -/
inductive StrOrList where
  | one : String → StrOrList
  | many : List String → StrOrList
deriving Repr, DecidableEq

/-- One `iam.PolicyStatement(...)` as built with the CDK constructor: effect,
action list, resource list, and an optional condition mapping
operator ↦ (context-key ↦ value). -/
structure PolicyStatement where
  effect : String
  actions : List String
  resources : List String
  conditions : List (String × List (String × String)) := []
deriving Repr, DecidableEq

/-- An `iam.ManagedPolicy(...)`: name, description and its policy document
(list of statements; the `Version` marker is implicit). -/
structure ManagedPolicy where
  managedPolicyName : String
  description : String
  document : List PolicyStatement
deriving Repr, DecidableEq

/-- `iam.FederatedPrincipal(federated, conditions, assume_role_action)`. -/
structure FederatedPrincipal where
  federated : String
  conditions : List (String × List (String × String))
  assumeRoleAction : String
deriving Repr, DecidableEq

/-- One statement of a role's assume-role (trust) policy document, as the CDK
synthesizes it from a `FederatedPrincipal`. -/
structure TrustStatement where
  effect : String
  actions : List String
  principalFederated : String
  conditions : List (String × List (String × String))
deriving Repr, DecidableEq

/-- CDK synthesis of the trust policy of a role assumed by a
`FederatedPrincipal`: a single Allow statement for the principal's
assume-role action, carrying the principal's conditions. -/
def trustPolicyOf (p : FederatedPrincipal) : List TrustStatement :=
  [{ effect := "Allow"
     actions := [p.assumeRoleAction]
     principalFederated := p.federated
     conditions := p.conditions }]

/-- `iam.Role(...)` as used in this stack: name, description, the federated
principal it is assumed by, and the maximum session duration in hours. -/
structure Role where
  roleName : String
  description : String
  assumedBy : FederatedPrincipal
  maxSessionDurationHours : Nat
deriving Repr, DecidableEq

/-- `iam.OpenIdConnectProvider(...)`. -/
structure OpenIdConnectProvider where
  url : String
  clientIds : List String
  thumbprints : List String
deriving Repr, DecidableEq

/-! ### GitHubOIDCStack: configuration resolution and validation -/

/-- Python truthiness of an optional string: `None` and `""` are falsy. -/
def pyFalsy : Option String → Bool
  | none => true
  | some s => s.isEmpty

/-- Python `x or y` for `x : str | None` and `y : str`: yields `y` when `x`
is `None` or empty. -/
def pyOr (x : Option String) (y : String) : String :=
  match x with
  | none => y
  | some s => if s.isEmpty then y else s

/-- Python `c in s` membership test over the string's characters. -/
def pyInStr (c : Char) (s : String) : Bool :=
  s.data.contains c

/-- `os.environ.get(key, default)` over an explicit environment mapping. -/
def envGet (env : List (String × String)) (key dflt : String) : String :=
  match env.find? (fun kv => kv.1 = key) with
  | some kv => kv.2
  | none => dflt

/-- `GitHubOIDCStack.__init__` lines 39-42: resolve the GitHub owner with the
`GITHUB_OWNER` environment fallback and default `"infiquetra"`. -/
def resolveGithubOwner (githubOwner : Option String)
    (env : List (String × String)) : String :=
  pyOr githubOwner (envGet env "GITHUB_OWNER" "infiquetra")

/-- `GitHubOIDCStack.__init__` lines 40-42: resolve the repository name with
the `GITHUB_REPO` environment fallback and default `"infiquetra-aws-infra"`. -/
def resolveRepoName (repoName : Option String)
    (env : List (String × String)) : String :=
  pyOr repoName (envGet env "GITHUB_REPO" "infiquetra-aws-infra")

/-- `GitHubOIDCStack._validate_configuration`: the chain of checks, each
raising `ValueError` with its message.  `account` and `region` come from the
stack environment and are falsy when unset or empty. -/
def validateConfiguration (githubOwner repoName : String)
    (account region : Option String) : Except String Unit :=
  if githubOwner.isEmpty then
    .error "GitHub owner must be specified"
  else if repoName.isEmpty then
    .error "Repository name must be specified"
  else if pyInStr '/' githubOwner then
    .error "GitHub owner cannot contain forward slashes"
  else if pyInStr '/' repoName then
    .error "Repository name cannot contain forward slashes"
  else if pyFalsy account then
    .error "AWS account ID must be specified in the stack environment"
  else if pyFalsy region then
    .error "AWS region must be specified in the stack environment"
  else
    .ok ()

/-- `GitHubOIDCStack._create_oidc_provider`. -/
def createOidcProvider : OpenIdConnectProvider :=
  { url := "https://token.actions.githubusercontent.com"
    clientIds := ["sts.amazonaws.com"]
    thumbprints := ["1111111111111111111111111111111111111111"] }

/-- `GitHubOIDCStack._create_github_actions_role(oidc_provider, repo_full_name)`.
The subject condition in the source is the hard-coded organization-wide
wildcard `"repo:infiquetra/*"` (the per-repository variant is commented out),
so `repoFullName` does not flow into the trust conditions. -/
def createGithubActionsRole (oidcProviderArn repoFullName : String) : Role :=
  { roleName := "infiquetra-aws-infra-gha-role"
    description :=
      "Role for GitHub Actions to deploy CDK stacks from infiquetra-aws-infra"
    assumedBy :=
      { federated := oidcProviderArn
        conditions :=
          [("StringEquals",
             [("token.actions.githubusercontent.com:aud", "sts.amazonaws.com")]),
           ("StringLike",
             [("token.actions.githubusercontent.com:sub", "repo:infiquetra/*")])]
        assumeRoleAction := "sts:AssumeRoleWithWebIdentity" }
    maxSessionDurationHours := 12 }

/-! ### GitHubOIDCStack: the CDK deployment managed policy -/

/-- `GitHubOIDCStack._create_cdk_deployment_policy`.  `accountId` and
`region` stand for the `cdk.Aws.ACCOUNT_ID` / `cdk.Aws.REGION` tokens that
CloudFormation resolves at deploy time. -/
def createCdkDeploymentPolicy (accountId region : String) : ManagedPolicy :=
  { managedPolicyName := "infiquetra-aws-infra-gha-cdk-policy"
    description := "CDK, Organizations, and SSO deployment permissions"
    document :=
      [{ effect := "Allow"
         actions :=
           ["cloudformation:CreateStack", "cloudformation:UpdateStack",
            "cloudformation:DeleteStack", "cloudformation:DescribeStacks",
            "cloudformation:DescribeStackEvents",
            "cloudformation:DescribeStackResources",
            "cloudformation:GetTemplate", "cloudformation:ListStacks",
            "cloudformation:ValidateTemplate", "cloudformation:CreateChangeSet",
            "cloudformation:DescribeChangeSet", "cloudformation:ExecuteChangeSet",
            "cloudformation:DeleteChangeSet", "cloudformation:ListChangeSets",
            "cloudformation:GetStackPolicy", "cloudformation:SetStackPolicy"]
         resources :=
           [s!"arn:aws:cloudformation:{region}:{accountId}:stack/CDKToolkit/*",
            s!"arn:aws:cloudformation:{region}:{accountId}:stack/*-Organizations-*/*",
            s!"arn:aws:cloudformation:{region}:{accountId}:stack/*-SSO-*/*",
            s!"arn:aws:cloudformation:{region}:{accountId}:stack/*/*"] },
       { effect := "Allow"
         actions := ["cloudformation:ListStacks", "cloudformation:DescribeStacks"]
         resources := ["*"] },
       { effect := "Allow"
         actions :=
           ["iam:CreateRole", "iam:DeleteRole", "iam:GetRole", "iam:PassRole",
            "iam:AttachRolePolicy", "iam:DetachRolePolicy", "iam:PutRolePolicy",
            "iam:DeleteRolePolicy", "iam:GetRolePolicy", "iam:ListRolePolicies",
            "iam:ListAttachedRolePolicies", "iam:TagRole", "iam:UntagRole",
            "iam:UpdateRole", "iam:UpdateAssumeRolePolicy"]
         resources :=
           [s!"arn:aws:iam::{accountId}:role/cdk-*",
            s!"arn:aws:iam::{accountId}:role/*-Organizations-*",
            s!"arn:aws:iam::{accountId}:role/*-SSO-*",
            s!"arn:aws:iam::{accountId}:role/AWSControlTower*",
            s!"arn:aws:iam::{accountId}:role/OrganizationAccountAccessRole",
            s!"arn:aws:iam::{accountId}:role/infiquetra-*",
            s!"arn:aws:iam::{accountId}:role/Lambda*",
            s!"arn:aws:iam::{accountId}:role/aws-service-role/*"] },
       { effect := "Allow"
         actions :=
           ["iam:CreatePolicy", "iam:DeletePolicy", "iam:GetPolicy",
            "iam:GetPolicyVersion", "iam:ListPolicyVersions",
            "iam:CreatePolicyVersion", "iam:DeletePolicyVersion",
            "iam:SetDefaultPolicyVersion", "iam:TagPolicy", "iam:UntagPolicy"]
         resources :=
           [s!"arn:aws:iam::{accountId}:policy/cdk-*",
            s!"arn:aws:iam::{accountId}:policy/*-Organizations-*",
            s!"arn:aws:iam::{accountId}:policy/*-SSO-*",
            s!"arn:aws:iam::{accountId}:policy/infiquetra-*",
            s!"arn:aws:iam::{accountId}:policy/Lambda*",
            s!"arn:aws:iam::{accountId}:policy/AWSLambda*"] },
       { effect := "Allow"
         actions :=
           ["iam:ListRoles", "iam:ListPolicies", "iam:GetUser",
            "iam:GetAccountSummary"]
         resources := ["*"] },
       { effect := "Allow"
         actions :=
           ["s3:GetObject", "s3:PutObject", "s3:DeleteObject",
            "s3:GetBucketLocation", "s3:GetBucketPolicy", "s3:PutBucketPolicy",
            "s3:DeleteBucketPolicy", "s3:ListBucket", "s3:CreateBucket",
            "s3:DeleteBucket", "s3:PutBucketVersioning",
            "s3:PutEncryptionConfiguration", "s3:PutBucketPublicAccessBlock",
            "s3:PutBucketNotification", "s3:PutBucketLogging",
            "s3:PutBucketCORS", "s3:PutBucketWebsite", "s3:PutBucketTagging",
            "s3:PutObjectAcl", "s3:GetBucketAcl", "s3:PutBucketAcl",
            "s3:GetObjectVersion", "s3:DeleteObjectVersion",
            "s3:PutLifecycleConfiguration", "s3:GetBucketVersioning",
            "s3:GetBucketNotification", "s3:GetBucketCORS",
            "s3:GetBucketWebsite", "s3:GetBucketTagging"]
         resources :=
           [s!"arn:aws:s3:::cdk-*-assets-{accountId}-{region}",
            s!"arn:aws:s3:::cdk-*-assets-{accountId}-{region}/*",
            "arn:aws:s3:::infiquetra-*",
            "arn:aws:s3:::infiquetra-*/*"] },
       { effect := "Allow"
         actions :=
           ["ssm:GetParameter", "ssm:GetParameters", "ssm:PutParameter",
            "ssm:DeleteParameter"]
         resources :=
           [s!"arn:aws:ssm:{region}:{accountId}:parameter/cdk-bootstrap/*",
            s!"arn:aws:ssm:{region}:{accountId}:parameter/infiquetra/*"] },
       { effect := "Allow"
         actions :=
           ["organizations:DescribeOrganization", "organizations:DescribeAccount",
            "organizations:ListAccounts", "organizations:ListRoots",
            "organizations:ListOrganizationalUnitsForParent",
            "organizations:ListChildren",
            "organizations:DescribeOrganizationalUnit",
            "organizations:ListPolicies", "organizations:DescribePolicy",
            "organizations:ListTargetsForPolicy"]
         resources := ["*"] },
       { effect := "Allow"
         actions :=
           ["organizations:CreateAccount",
            "organizations:CreateOrganizationalUnit",
            "organizations:UpdateOrganizationalUnit",
            "organizations:MoveAccount", "organizations:TagResource",
            "organizations:UntagResource", "organizations:AttachPolicy",
            "organizations:DetachPolicy"]
         resources := ["*"]
         conditions := [("StringEquals", [("aws:RequestedRegion", "us-east-1")])] },
       { effect := "Allow"
         actions :=
           ["sso:ListInstances", "sso:DescribeInstance",
            "sso:ListPermissionSets", "sso:DescribePermissionSet",
            "sso:GetInlinePolicyForPermissionSet",
            "sso:ListManagedPoliciesInPermissionSet",
            "sso:ListAccountsForProvisionedPermissionSet",
            "sso:ListPermissionSetProvisioningStatus",
            "sso:DescribePermissionSetProvisioningStatus"]
         resources := ["*"] },
       { effect := "Allow"
         actions :=
           ["sso:CreatePermissionSet", "sso:UpdatePermissionSet",
            "sso:DeletePermissionSet", "sso:PutInlinePolicyInPermissionSet",
            "sso:DeleteInlinePolicyFromPermissionSet",
            "sso:AttachManagedPolicyToPermissionSet",
            "sso:DetachManagedPolicyFromPermissionSet",
            "sso:ProvisionPermissionSet", "sso:CreateAccountAssignment",
            "sso:DeleteAccountAssignment", "sso:TagResource",
            "sso:UntagResource"]
         resources := ["*"] },
       { effect := "Allow"
         actions :=
           ["identitystore:ListUsers", "identitystore:DescribeUser",
            "identitystore:ListGroups", "identitystore:DescribeGroup",
            "identitystore:ListGroupMemberships",
            "identitystore:GetGroupMembershipId",
            "identitystore:IsMemberInGroups"]
         resources := ["*"] },
       { effect := "Allow"
         actions :=
           ["cloudtrail:DescribeTrails", "cloudtrail:GetTrailStatus",
            "cloudtrail:LookupEvents"]
         resources := ["*"] },
       { effect := "Allow"
         actions :=
           ["logs:CreateLogGroup", "logs:CreateLogStream", "logs:PutLogEvents",
            "logs:DescribeLogGroups", "logs:DescribeLogStreams",
            "kms:Decrypt", "kms:DescribeKey", "kms:GenerateDataKey",
            "ec2:DescribeAvailabilityZones", "ec2:DescribeVpcs",
            "ec2:DescribeSubnets", "sts:GetCallerIdentity"]
         resources := ["*"] }] }

/-- `GitHubOIDCStack._create_serverless_policy`. -/
def createServerlessPolicy : ManagedPolicy :=
  { managedPolicyName := "infiquetra-aws-infra-gha-serverless-policy"
    description := "Core serverless services: Lambda, API Gateway, DynamoDB"
    document :=
      [{ effect := "Allow", actions := ["lambda:*"], resources := ["*"] },
       { effect := "Allow", actions := ["apigateway:*", "apigatewayv2:*"]
         resources := ["*"] },
       { effect := "Allow", actions := ["dynamodb:*"], resources := ["*"] }] }

/-- `GitHubOIDCStack._create_event_driven_policy`. -/
def createEventDrivenPolicy : ManagedPolicy :=
  { managedPolicyName := "infiquetra-aws-infra-gha-event-driven-policy"
    description := "Event-driven services: EventBridge, Step Functions, SNS, SQS"
    document :=
      [{ effect := "Allow", actions := ["events:*"], resources := ["*"] },
       { effect := "Allow", actions := ["states:*"], resources := ["*"] },
       { effect := "Allow", actions := ["sns:*", "sqs:*"], resources := ["*"] }] }

/-- `GitHubOIDCStack._create_edge_services_policy`. -/
def createEdgeServicesPolicy : ManagedPolicy :=
  { managedPolicyName := "infiquetra-aws-infra-gha-edge-services-policy"
    description := "Edge services: CloudFront, WAF, Route53"
    document :=
      [{ effect := "Allow", actions := ["cloudfront:*"], resources := ["*"] },
       { effect := "Allow", actions := ["wafv2:*"], resources := ["*"] },
       { effect := "Allow", actions := ["route53:*", "route53resolver:*"]
         resources := ["*"] }] }

/-- `GitHubOIDCStack._create_data_analytics_policy`. -/
def createDataAnalyticsPolicy : ManagedPolicy :=
  { managedPolicyName := "infiquetra-aws-infra-gha-data-analytics-policy"
    description := "Data analytics services: Athena, Glue, Kinesis"
    document :=
      [{ effect := "Allow", actions := ["athena:*"], resources := ["*"] },
       { effect := "Allow", actions := ["glue:*"], resources := ["*"] },
       { effect := "Allow"
         actions := ["kinesis:*", "firehose:*", "kinesisanalytics:*"]
         resources := ["*"] }] }

/-- `GitHubOIDCStack._create_security_policy`. -/
def createSecurityPolicy : ManagedPolicy :=
  { managedPolicyName := "infiquetra-aws-infra-gha-security-policy"
    description := "Security services: Cognito, Secrets Manager, KMS, X-Ray"
    document :=
      [{ effect := "Allow", actions := ["cognito-idp:*", "cognito-identity:*"]
         resources := ["*"] },
       { effect := "Allow", actions := ["secretsmanager:*"], resources := ["*"] },
       { effect := "Allow", actions := ["kms:*"], resources := ["*"] },
       { effect := "Allow", actions := ["xray:*"], resources := ["*"] }] }

/-- `GitHubOIDCStack._create_infrastructure_policy`. -/
def createInfrastructurePolicy : ManagedPolicy :=
  { managedPolicyName := "infiquetra-aws-infra-gha-infrastructure-policy"
    description := "Infrastructure services: EC2/VPC, ECR, AppSync, CloudWatch"
    document :=
      [{ effect := "Allow", actions := ["ec2:*"], resources := ["*"] },
       { effect := "Allow", actions := ["ecr:*"], resources := ["*"] },
       { effect := "Allow", actions := ["appsync:*"], resources := ["*"] },
       { effect := "Allow"
         actions :=
           ["logs:*", "cloudwatch:*", "synthetics:*", "applicationinsights:*"]
         resources := ["*"] }] }

/-! ### GitHubOIDCStack: full construction (`__init__`) -/

/-- Everything the `GitHubOIDCStack` constructor builds after validation
passes: the OIDC provider, the GitHub Actions role, and the seven managed
policies attached to it (in attachment order). -/
structure GitHubOIDCStackOutput where
  githubOwner : String
  repoName : String
  repoFullName : String
  oidcProvider : OpenIdConnectProvider
  githubActionsRole : Role
  managedPolicies : List ManagedPolicy
deriving Repr, DecidableEq

/-- `GitHubOIDCStack.__init__`: resolve the owner/repo configuration (with
environment fallbacks), validate it, and only then construct the provider,
role and policy documents.  A validation failure aborts with `Except.error`
before any configuration value is produced.  `oidcProviderArn` stands for the
provider's ARN token referenced by the role's trust policy; `accountId` and
`region` stand for the `cdk.Aws` tokens used by the deployment policy. -/
def githubOIDCStack (githubOwner repoName : Option String)
    (env : List (String × String)) (account region : Option String)
    (oidcProviderArn accountId regionTok : String) :
    Except String GitHubOIDCStackOutput :=
  let owner := resolveGithubOwner githubOwner env
  let repo := resolveRepoName repoName env
  let repoFullName := owner ++ "/" ++ repo
  match validateConfiguration owner repo account region with
  | .error e => .error e
  | .ok _ =>
      .ok { githubOwner := owner
            repoName := repo
            repoFullName := repoFullName
            oidcProvider := createOidcProvider
            githubActionsRole :=
              createGithubActionsRole oidcProviderArn repoFullName
            managedPolicies :=
              [createCdkDeploymentPolicy accountId regionTok,
               createServerlessPolicy, createEventDrivenPolicy,
               createEdgeServicesPolicy, createDataAnalyticsPolicy,
               createSecurityPolicy, createInfrastructurePolicy] }

/-! ### OrganizationStack: organizational units and service control policies -/

/-- A parent reference of an organizational unit: either the literal
organization root id (`self.root_id`) or a CFN ref to a previously declared
unit (`other_ou.ref`), named by that unit's construct id. -/
inductive ParentRef where
  | root (id : String)
  | ouRef (constructId : String)
deriving Repr, DecidableEq

/-- One `organizations.CfnOrganizationalUnit(...)` declaration. -/
structure OrgUnit where
  constructId : String
  name : String
  parentId : ParentRef
  tags : List (String × String)
deriving Repr, DecidableEq

/-- `OrganizationStack.root_id` (from audit). -/
def organizationRootId : String := "r-f3un"

/-- `OrganizationStack.create_organizational_structure`: the seven
organizational units, in declaration order. -/
def organizationalUnits : List OrgUnit :=
  [{ constructId := "CoreOU", name := "Core"
     parentId := .root organizationRootId
     tags := [("Purpose", "Shared Services"), ("BusinessUnit", "Core")] },
   { constructId := "MediaOU", name := "Media"
     parentId := .root organizationRootId
     tags := [("Purpose", "Online content branding media"),
              ("BusinessUnit", "Media"),
              ("LegalEntity", "Infiquetra Media LLC")] },
   { constructId := "AppsOU", name := "Apps"
     parentId := .root organizationRootId
     tags := [("Purpose", "Software product development"),
              ("BusinessUnit", "Apps"),
              ("LegalEntity", "Infiquetra Apps LLC")] },
   { constructId := "ConsultingOU", name := "Consulting"
     parentId := .root organizationRootId
     tags := [("Purpose", "Contracting and consulting services"),
              ("BusinessUnit", "Consulting"),
              ("LegalEntity", "Infiquetra Consulting LLC")] },
   { constructId := "AppsCamppsOU", name := "CAMPPS"
     parentId := .ouRef "AppsOU"
     tags := [("Purpose", "CAMPPS application workloads"),
              ("Project", "CAMPPS"), ("BusinessUnit", "Apps")] },
   { constructId := "CamppsProductionOU", name := "Production"
     parentId := .ouRef "AppsCamppsOU"
     tags := [("Environment", "Production"), ("Project", "CAMPPS")] },
   { constructId := "CamppsNonProdOU", name := "NonProd"
     parentId := .ouRef "AppsCamppsOU"
     tags := [("AccountType", "NonProduction"), ("Project", "CAMPPS")] }]

/-- One statement of an SCP or inline-policy JSON document.  `principal` is
the value of the `"Principal": \x7b"AWS": ...\x7d` entry when present. -/
structure JsonStatement where
  sid : String
  effect : String
  principal : Option String := none
  action : StrOrList
  resource : StrOrList
  condition : List (String × List (String × StrOrList)) := []
deriving Repr, DecidableEq

/-- One `organizations.CfnPolicy(...)` declaration (a service control
policy): name, description, type, JSON content, target OU refs (by construct
id) and tags. -/
structure CfnPolicy where
  constructId : String
  name : String
  description : String
  policyType : String
  content : List JsonStatement
  targetIds : List ParentRef
  tags : List (String × String)
deriving Repr, DecidableEq

/-- `base_security_policy` from
`OrganizationStack.create_service_control_policies`. -/
def baseSecurityPolicyContent : List JsonStatement :=
  [{ sid := "DenyRootUserActions", effect := "Deny", principal := some "*"
     action := .one "*", resource := .one "*"
     condition := [("StringEquals", [("aws:PrincipalType", .one "Root")])] },
   { sid := "DenyDeleteLoggingResources", effect := "Deny", principal := some "*"
     action := .many ["logs:DeleteLogGroup", "logs:DeleteLogStream",
                      "cloudtrail:DeleteTrail", "cloudtrail:StopLogging"]
     resource := .one "*" },
   { sid := "RequireMFAForSensitiveActions", effect := "Deny"
     principal := some "*"
     action := .many ["iam:DeleteUser", "iam:DeleteRole", "iam:DeletePolicy",
                      "organizations:*"]
     resource := .one "*"
     condition :=
       [("BoolIfExists", [("aws:MultiFactorAuthPresent", .one "false")])] }]

/-- `dev_cost_control_policy` from
`OrganizationStack.create_service_control_policies`. -/
def devCostControlPolicyContent : List JsonStatement :=
  [{ sid := "DenyExpensiveInstanceTypes", effect := "Deny", principal := some "*"
     action := .one "ec2:RunInstances"
     resource := .one "arn:aws:ec2:*:*:instance/*"
     condition :=
       [("StringNotEquals",
          [("ec2:InstanceType",
             .many ["t3.nano", "t3.micro", "t3.small", "t3.medium",
                    "t4g.nano", "t4g.micro", "t4g.small", "t4g.medium"])])] }]

/-- `OrganizationStack.create_service_control_policies`: the two SCPs. -/
def serviceControlPolicies : List CfnPolicy :=
  [{ constructId := "BaseSecuritySCP", name := "BaseSecurityPolicy"
     description := "Base security controls applied to all business units"
     policyType := "SERVICE_CONTROL_POLICY"
     content := baseSecurityPolicyContent
     targetIds := [.ouRef "CoreOU", .ouRef "MediaOU", .ouRef "AppsOU",
                   .ouRef "ConsultingOU"]
     tags := [("PolicyType", "Security"), ("Scope", "AllBusinessUnits")] },
   { constructId := "NonProdCostControlSCP", name := "NonProductionCostControl"
     description := "Cost controls for non-production environments"
     policyType := "SERVICE_CONTROL_POLICY"
     content := devCostControlPolicyContent
     targetIds := [.ouRef "CamppsNonProdOU"]
     tags := [("PolicyType", "CostControl"), ("AccountType", "NonProduction")] }]

/-! ### SSOStack: permission sets -/

/-- One `sso.CfnPermissionSet(...)` declaration. -/
structure PermissionSet where
  constructId : String
  name : String
  description : String
  sessionDuration : String
  managedPolicyArns : List String
  inlinePolicy : Option (List JsonStatement) := none
  tags : List (String × String)
deriving Repr, DecidableEq

/-- `SSOStack.sso_instance_arn` (from audit). -/
def ssoInstanceArn : String := "arn:aws:sso:::instance/ssoins-7223f05fc9da6e24"

/-- `SSOStack.create_campps_developer_policy`: the inline policy JSON for the
CAMPPS developer permission set. -/
def createCamppsDeveloperPolicy : List JsonStatement :=
  [{ sid := "CamppsResourceAccess", effect := "Allow"
     action := .many ["s3:*", "dynamodb:*", "lambda:*", "apigateway:*",
                      "cloudformation:*", "cloudwatch:*", "logs:*"]
     resource := .one "*"
     condition :=
       [("StringLike",
          [("aws:RequestedRegion", .many ["us-east-1", "us-west-2"])])] },
   { sid := "CamppsTaggedResourceAccess", effect := "Allow"
     action := .one "*", resource := .one "*"
     condition :=
       [("StringEquals", [("aws:ResourceTag/Project", .one "CAMPPS")])] }]

/-- `SSOStack.create_permission_sets`: the eleven permission sets, in
declaration order. -/
def createPermissionSets : List PermissionSet :=
  [{ constructId := "CoreAdminPermissionSet", name := "CoreAdministrator"
     description :=
       "Full administrative access for core infrastructure and security"
     sessionDuration := "PT4H"
     managedPolicyArns := ["arn:aws:iam::aws:policy/AdministratorAccess"]
     tags := [("Role", "CoreAdministrator"), ("BusinessUnit", "Core"),
              ("AccessLevel", "Full")] },
   { constructId := "SecurityAuditorPermissionSet", name := "SecurityAuditor"
     description := "Read-only access for security auditing and compliance"
     sessionDuration := "PT8H"
     managedPolicyArns := ["arn:aws:iam::aws:policy/SecurityAudit",
                           "arn:aws:iam::aws:policy/ReadOnlyAccess"]
     tags := [("Role", "SecurityAuditor"), ("BusinessUnit", "Core"),
              ("AccessLevel", "ReadOnly")] },
   { constructId := "BillingManagerPermissionSet", name := "BillingManager"
     description := "Billing and cost management access"
     sessionDuration := "PT12H"
     managedPolicyArns := ["arn:aws:iam::aws:policy/job-function/Billing"]
     tags := [("Role", "BillingManager"), ("BusinessUnit", "Core"),
              ("AccessLevel", "Billing")] },
   { constructId := "MediaDeveloperPermissionSet", name := "MediaDeveloper"
     description :=
       "Development access for media content and branding workloads"
     sessionDuration := "PT8H"
     managedPolicyArns := ["arn:aws:iam::aws:policy/PowerUserAccess"]
     tags := [("Role", "Developer"), ("BusinessUnit", "Media"),
              ("AccessLevel", "PowerUser")] },
   { constructId := "MediaAdminPermissionSet", name := "MediaAdministrator"
     description := "Administrative access for Infiquetra Media, LLC resources"
     sessionDuration := "PT4H"
     managedPolicyArns := ["arn:aws:iam::aws:policy/AdministratorAccess"]
     tags := [("Role", "Administrator"), ("BusinessUnit", "Media"),
              ("AccessLevel", "Full")] },
   { constructId := "AppsDeveloperPermissionSet", name := "AppsDeveloper"
     description := "Development access for software product development"
     sessionDuration := "PT8H"
     managedPolicyArns := ["arn:aws:iam::aws:policy/PowerUserAccess"]
     tags := [("Role", "Developer"), ("BusinessUnit", "Apps"),
              ("AccessLevel", "PowerUser")] },
   { constructId := "AppsAdminPermissionSet", name := "AppsAdministrator"
     description := "Administrative access for Infiquetra Apps, LLC resources"
     sessionDuration := "PT4H"
     managedPolicyArns := ["arn:aws:iam::aws:policy/AdministratorAccess"]
     tags := [("Role", "Administrator"), ("BusinessUnit", "Apps"),
              ("AccessLevel", "Full")] },
   { constructId := "CamppsDeveloperPermissionSet", name := "CamppssDeveloper"
     description := "Development access for CAMPPS application workloads"
     sessionDuration := "PT8H"
     managedPolicyArns := ["arn:aws:iam::aws:policy/PowerUserAccess"]
     inlinePolicy := some createCamppsDeveloperPolicy
     tags := [("Role", "Developer"), ("BusinessUnit", "Apps"),
              ("Project", "CAMPPS"), ("AccessLevel", "PowerUser")] },
   { constructId := "ConsultingDeveloperPermissionSet"
     name := "ConsultingDeveloper"
     description :=
       "Development access for consulting and contracting projects"
     sessionDuration := "PT8H"
     managedPolicyArns := ["arn:aws:iam::aws:policy/PowerUserAccess"]
     tags := [("Role", "Developer"), ("BusinessUnit", "Consulting"),
              ("AccessLevel", "PowerUser")] },
   { constructId := "ConsultingAdminPermissionSet"
     name := "ConsultingAdministrator"
     description :=
       "Administrative access for Infiquetra Consulting, LLC resources"
     sessionDuration := "PT4H"
     managedPolicyArns := ["arn:aws:iam::aws:policy/AdministratorAccess"]
     tags := [("Role", "Administrator"), ("BusinessUnit", "Consulting"),
              ("AccessLevel", "Full")] },
   { constructId := "ReadOnlyPermissionSet", name := "ReadOnlyAccess"
     description := "Read-only access for contractors and temporary users"
     sessionDuration := "PT4H"
     managedPolicyArns := ["arn:aws:iam::aws:policy/ReadOnlyAccess"]
     tags := [("Role", "ReadOnly"), ("AccessLevel", "ReadOnly")] }]

/-! ### Semantic helpers: wildcard matching, durations, tree reachability -/

/-- IAM `StringLike` wildcard matching over character lists: `*` matches any
sequence of characters, `?` matches exactly one. -/
def globMatch : List Char → List Char → Bool
  | [], s => s.isEmpty
  | '*' :: ps, s => s.tails.any fun t => globMatch ps t
  | '?' :: ps, s =>
      match s with
      | [] => false
      | _ :: cs => globMatch ps cs
  | p :: ps, s =>
      match s with
      | [] => false
      | c :: cs => p == c && globMatch ps cs

/-- `StringLike` matching on strings: does `pattern` match `value`? -/
def stringLike (pattern value : String) : Bool :=
  globMatch pattern.data value.data

/-- Parse the digits-then-`H` tail of an hour duration; `seen` records that
at least one digit has been read. -/
def parseHourBody : List Char → Nat → Bool → Option Nat
  | ['H'], acc, true => some acc
  | c :: cs, acc, _ =>
      if c.isDigit then
        parseHourBody cs (acc * 10 + (c.toNat - 48)) true
      else
        none
  | _, _, _ => none

/-- Parse an ISO-8601 hour duration of the form `PT{n}H` (the only form used
by the SSO stack) into a number of hours. -/
def parseSessionHours (s : String) : Option Nat :=
  match s.data with
  | 'P' :: 'T' :: rest => parseHourBody rest 0 false
  | _ => none

/-- Look up a declared organizational unit by construct id. -/
def findUnit (cid : String) : Option OrgUnit :=
  organizationalUnits.find? fun u => u.constructId == cid

/-- Does following parent references from `p` reach the organization root
within `fuel` steps? -/
def reachesRoot : Nat → ParentRef → Bool
  | _, .root id => id == organizationRootId
  | 0, .ouRef _ => false
  | fuel + 1, .ouRef cid =>
      match findUnit cid with
      | some u => reachesRoot fuel u.parentId
      | none => false

/-- Each unit's parent reference is the organization root or a unit declared
strictly earlier in the list (so references are well-founded left to right). -/
def parentsPreviouslyDefined (units : List OrgUnit) : Bool :=
  (units.foldl
    (fun (acc : Bool × List String) u =>
      (acc.1 &&
        (match u.parentId with
         | .root id => id == organizationRootId
         | .ouRef cid => acc.2.contains cid),
       u.constructId :: acc.2))
    (true, [])).1

/-- The full one-shot synthesis of this repository: the OIDC bootstrap stack
output together with the organization topology, its service control policies
and the SSO permission sets.  All inputs (explicit configuration, environment
mapping, stack environment, token values) are explicit parameters. -/
def synthesizeAll (githubOwner repoName : Option String)
    (env : List (String × String)) (account region : Option String)
    (oidcProviderArn accountId regionTok : String) :
    Except String GitHubOIDCStackOutput × List OrgUnit × List CfnPolicy ×
      List PermissionSet :=
  (githubOIDCStack githubOwner repoName env account region oidcProviderArn
     accountId regionTok,
   organizationalUnits, serviceControlPolicies, createPermissionSets)

/-- The denylist of maximally destructive full-service wildcard actions that
must not appear in a `resources == \x5b"*"\x5d` statement of the
deployment-scoped document. -/
def bannedWildcardActions : List String :=
  ["iam:*", "organizations:*", "sso:*", "cloudformation:*", "s3:*"]

/-- Is an action string a full-service wildcard, i.e. a non-empty service
name followed by `:*`? -/
def isFullServiceWildcard (a : String) : Bool :=
  match a.data.reverse with
  | '*' :: ':' :: _ :: _ => true
  | _ => false

/-- The organization-management write actions of the deployment policy. -/
def orgWriteActions : List String :=
  ["organizations:CreateAccount", "organizations:CreateOrganizationalUnit",
   "organizations:UpdateOrganizationalUnit", "organizations:MoveAccount",
   "organizations:TagResource", "organizations:UntagResource",
   "organizations:AttachPolicy", "organizations:DetachPolicy"]

/-- Does a condition mapping contain
`StringEquals aws:RequestedRegion = us-east-1`? -/
def hasRequestedRegionUsEast1
    (conds : List (String × List (String × String))) : Bool :=
  conds.any fun c =>
    c.1 == "StringEquals" &&
      c.2.any fun kv => kv.1 == "aws:RequestedRegion" && kv.2 == "us-east-1"

/-- Is the Except value an error (a raised `ValueError`)? -/
def isError {ε α : Type} : Except ε α → Bool
  | .error _ => true
  | .ok _ => false

/-- The `StringLike` subject-pattern condition value of a role's trust
policy (the `token.actions.githubusercontent.com:sub` entry). -/
def subjectConditionOf (r : Role) : Option String :=
  (r.assumedBy.conditions.find? fun c => c.1 == "StringLike").bind fun c =>
    (c.2.find? fun kv =>
      kv.1 == "token.actions.githubusercontent.com:sub").map (·.2)

/-- The `StringEquals` audience condition value of a role's trust policy
(the `token.actions.githubusercontent.com:aud` entry). -/
def audienceConditionOf (r : Role) : Option String :=
  (r.assumedBy.conditions.find? fun c => c.1 == "StringEquals").bind fun c =>
    (c.2.find? fun kv =>
      kv.1 == "token.actions.githubusercontent.com:aud").map (·.2)

/-! ## Theorems about the embedded stacks -/

/-- Claim C3 — wildcard-danger property: in the deployment-scoped policy
document (for any account/region tokens), every statement whose resources
list is exactly `\x5b"*"\x5d` contains none of the maximally destructive
full-service wildcard actions (`iam:*`, `organizations:*`, `sso:*`,
`cloudformation:*`, `s3:*`), encoded as "no banned action, or resources not
`\x5b"*"\x5d`"; whereas both the serverless and the security service-domain
documents contain a statement pairing resources `\x5b"*"\x5d` with a
full-service wildcard action. -/
theorem deployment_wildcard_denylist_and_service_domain_wildcards
    (accountId region : String) :
    ((createCdkDeploymentPolicy accountId region).document.all fun st =>
        bannedWildcardActions.all (fun b => !(st.actions.contains b)) ||
          !(st.resources == ["*"])) = true ∧
    (createServerlessPolicy.document.any fun st =>
        st.resources == ["*"] && st.actions.any isFullServiceWildcard) = true ∧
    (createSecurityPolicy.document.any fun st =>
        st.resources == ["*"] && st.actions.any isFullServiceWildcard) = true :=
  ⟨rfl, by decide, by decide⟩

/-- Claim C4 — in the deployment-scoped policy document (for any account and
region tokens), every statement granting an organization-management write
action carries the `StringEquals aws:RequestedRegion = us-east-1` condition,
and such a statement does occur (the property is not vacuous). -/
theorem org_write_actions_require_us_east_1 (accountId region : String) :
    ((createCdkDeploymentPolicy accountId region).document.all fun st =>
        !(st.actions.any fun a => orgWriteActions.contains a) ||
          hasRequestedRegionUsEast1 st.conditions) = true ∧
    ((createCdkDeploymentPolicy accountId region).document.any fun st =>
        st.actions.any fun a => orgWriteActions.contains a) = true :=
  ⟨rfl, rfl⟩

/-- Claim C5 — scenario B: composing the deployment-scoped policy with
account `123456789012` and region `us-east-1` yields a statement whose
resources include the interpolated pattern
`arn:aws:cloudformation:us-east-1:123456789012:stack/*-Organizations-*/*`
and whose actions include `cloudformation:DescribeStacks`. -/
theorem deployment_policy_scenario_b :
    ((createCdkDeploymentPolicy "123456789012" "us-east-1").document.any
      fun st =>
        st.resources.contains
            "arn:aws:cloudformation:us-east-1:123456789012:stack/*-Organizations-*/*"
          && st.actions.contains "cloudformation:DescribeStacks") = true := by
  decide

/-- Claim C6 — session-duration bound: every permission set declared by the
SSO stack has a session duration of the form `PT{n}H` with `n ≤ 12`, and the
federated GitHub Actions role (for any provider ARN and repository
configuration) has a maximum session duration of at most 12 hours. -/
theorem session_durations_at_most_12_hours (arn repoFullName : String) :
    (createPermissionSets.all fun ps =>
        match parseSessionHours ps.sessionDuration with
        | some h => h ≤ 12
        | none => false) = true ∧
    (createGithubActionsRole arn repoFullName).maxSessionDurationHours ≤ 12 :=
  ⟨by decide, Nat.le.refl⟩

/-- Claim C7 — tree invariant: the declared organizational units have
pairwise distinct construct ids, each unit's single parent reference is the
organization root or a unit declared strictly earlier, and following parent
references from every declared unit reaches the root within
`organizationalUnits.length` steps (no cycles, single root). -/
theorem organization_topology_is_tree :
    (organizationalUnits.map (·.constructId)).Nodup ∧
    parentsPreviouslyDefined organizationalUnits = true ∧
    (organizationalUnits.all fun u =>
        reachesRoot organizationalUnits.length (.ouRef u.constructId)) = true := by
  decide

/-- Claim C1 counterexample: constructing the federated role for the
configuration `owner = "acme"`, `repo = "widget"` (subject pattern
`repo:acme/widget:ref:refs/heads/main`) yields the hard-coded subject
condition `repo:infiquetra/*`, which neither equals the given pattern nor
matches the subject it denotes — the given subject patterns do not flow into
the trust policy. -/
theorem federated_role_subject_condition_not_from_patterns :
    subjectConditionOf
        (createGithubActionsRole
          "arn:aws:iam::123456789012:oidc-provider/token.actions.githubusercontent.com"
          ("acme" ++ "/" ++ "widget")) = some "repo:infiquetra/*" ∧
    some "repo:infiquetra/*" ≠ some "repo:acme/widget:ref:refs/heads/main" ∧
    stringLike "repo:infiquetra/*" "repo:acme/widget:ref:refs/heads/main"
      = false := by
  decide

/-- Claim C1 (amended) — for every provider ARN and repository
configuration, the federated role's trust policy is exactly one statement
whose only allowed action is `sts:AssumeRoleWithWebIdentity`, gated by the
`StringEquals` audience condition `sts.amazonaws.com` AND the `StringLike`
subject condition; the subject condition is the fixed organization-wide
wildcard `repo:infiquetra/*`, not a pattern derived from the configured
repository. -/
theorem federated_role_trust_policy_fixed_shape (arn repoFullName : String) :
    trustPolicyOf (createGithubActionsRole arn repoFullName).assumedBy =
      [{ effect := "Allow"
         actions := ["sts:AssumeRoleWithWebIdentity"]
         principalFederated := arn
         conditions :=
           [("StringEquals",
              [("token.actions.githubusercontent.com:aud", "sts.amazonaws.com")]),
            ("StringLike",
              [("token.actions.githubusercontent.com:sub",
                "repo:infiquetra/*")])] }] :=
  rfl

/-- Claim C9 — the federated role's trust conditions do not depend on the
configured GitHub owner or repository: for any two owner/repo configurations
that pass the validation checks, the produced federated principal (hence the
trust policy) is identical, the subject condition is the constant
`repo:infiquetra/*`, and the audience condition is `sts.amazonaws.com`. -/
theorem trust_policy_independent_of_owner_repo
    (arn owner₁ repo₁ owner₂ repo₂ : String)
    (h₁ : owner₁.isEmpty = false ∧ repo₁.isEmpty = false ∧
          pyInStr '/' owner₁ = false ∧ pyInStr '/' repo₁ = false)
    (h₂ : owner₂.isEmpty = false ∧ repo₂.isEmpty = false ∧
          pyInStr '/' owner₂ = false ∧ pyInStr '/' repo₂ = false) :
    (createGithubActionsRole arn (owner₁ ++ "/" ++ repo₁)).assumedBy =
      (createGithubActionsRole arn (owner₂ ++ "/" ++ repo₂)).assumedBy ∧
    subjectConditionOf (createGithubActionsRole arn (owner₁ ++ "/" ++ repo₁)) =
      some "repo:infiquetra/*" ∧
    audienceConditionOf (createGithubActionsRole arn (owner₁ ++ "/" ++ repo₁)) =
      some "sts.amazonaws.com" :=
  ⟨rfl, rfl, rfl⟩

/-- Claim C9 witness: the theorem applied to the two concrete valid
configurations `acme/widget` and `foo/bar`. -/
theorem trust_policy_independent_of_owner_repo_witness :
    ("acme".isEmpty = false ∧ "widget".isEmpty = false ∧
     pyInStr '/' "acme" = false ∧ pyInStr '/' "widget" = false) ∧
    ("foo".isEmpty = false ∧ "bar".isEmpty = false ∧
     pyInStr '/' "foo" = false ∧ pyInStr '/' "bar" = false) ∧
    ((createGithubActionsRole "arn:aws:iam::123456789012:oidc-provider/gh"
          ("acme" ++ "/" ++ "widget")).assumedBy =
        (createGithubActionsRole "arn:aws:iam::123456789012:oidc-provider/gh"
          ("foo" ++ "/" ++ "bar")).assumedBy ∧
      subjectConditionOf
          (createGithubActionsRole "arn:aws:iam::123456789012:oidc-provider/gh"
            ("acme" ++ "/" ++ "widget")) = some "repo:infiquetra/*" ∧
      audienceConditionOf
          (createGithubActionsRole "arn:aws:iam::123456789012:oidc-provider/gh"
            ("acme" ++ "/" ++ "widget")) = some "sts.amazonaws.com") :=
  ⟨by decide, by decide,
   trust_policy_independent_of_owner_repo
     "arn:aws:iam::123456789012:oidc-provider/gh" "acme" "widget" "foo" "bar"
     (by decide) (by decide)⟩

/-- Claim C10 — of the eleven permission sets created by the SSO stack,
exactly one (the CAMPPS developer set, named `CamppssDeveloper`) carries an
inline policy; that inline policy contains a statement with effect `Allow`,
the universal action `*`, resource `*`, and whose only condition is
`StringEquals aws:ResourceTag/Project = CAMPPS`. -/
theorem campps_developer_inline_policy :
    createPermissionSets.length = 11 ∧
    (createPermissionSets.countP fun ps => ps.inlinePolicy.isSome) = 1 ∧
    ((createPermissionSets.find? fun ps => ps.inlinePolicy.isSome).map
        fun ps => (ps.name, ps.inlinePolicy)) =
      some ("CamppssDeveloper", some createCamppsDeveloperPolicy) ∧
    (createCamppsDeveloperPolicy.any fun st =>
        st.effect == "Allow" && st.action == .one "*" &&
          st.resource == .one "*" &&
          st.condition ==
            [("StringEquals", [("aws:ResourceTag/Project", .one "CAMPPS")])]) =
      true := by
  decide

/-- Claim C2 — determinism: the full synthesis is a pure function of its
inputs (explicit owner/repo configuration, environment mapping, stack
account/region, provider ARN and account/region tokens); two runs on equal
inputs produce equal output documents, with no dependence on anything else. -/
theorem synthesis_two_runs_equal
    (go₁ rn₁ go₂ rn₂ : Option String) (env₁ env₂ : List (String × String))
    (acct₁ reg₁ acct₂ reg₂ : Option String)
    (arn₁ accountId₁ regionTok₁ arn₂ accountId₂ regionTok₂ : String)
    (h : (go₁, rn₁, env₁, acct₁, reg₁, arn₁, accountId₁, regionTok₁) =
         (go₂, rn₂, env₂, acct₂, reg₂, arn₂, accountId₂, regionTok₂)) :
    synthesizeAll go₁ rn₁ env₁ acct₁ reg₁ arn₁ accountId₁ regionTok₁ =
      synthesizeAll go₂ rn₂ env₂ acct₂ reg₂ arn₂ accountId₂ regionTok₂ :=
  congrArg
    (fun t =>
      synthesizeAll t.1 t.2.1 t.2.2.1 t.2.2.2.1 t.2.2.2.2.1 t.2.2.2.2.2.1
        t.2.2.2.2.2.2.1 t.2.2.2.2.2.2.2)
    h

/-- Claim C2 witness: two runs on the concrete default configuration give
the same output. -/
theorem synthesis_two_runs_equal_witness :
    synthesizeAll (some "infiquetra") (some "infiquetra-aws-infra") []
        (some "123456789012") (some "us-east-1")
        "arn:aws:iam::123456789012:oidc-provider/gh" "123456789012"
        "us-east-1" =
      synthesizeAll (some "infiquetra") (some "infiquetra-aws-infra") []
        (some "123456789012") (some "us-east-1")
        "arn:aws:iam::123456789012:oidc-provider/gh" "123456789012"
        "us-east-1" :=
  synthesis_two_runs_equal _ _ _ _ _ _ _ _ _ _ _ _ _ _ _ _ rfl

/-- Helper: validation raises exactly when one of its six checks fires. -/
theorem validate_error_iff (owner repo : String)
    (account region : Option String) :
    isError (validateConfiguration owner repo account region) =
      (owner.isEmpty || repo.isEmpty || pyInStr '/' owner ||
       pyInStr '/' repo || pyFalsy account || pyFalsy region) := by
  unfold validateConfiguration
  repeat' split
  all_goals simp_all [isError]

/-- Claim C8 — constructing the OIDC bootstrap stack raises a
`ValueError` if and only if the resolved GitHub owner or repository name is
empty or contains `/`, or the stack environment's account or region is unset
(falsy); the `Except` result models that a raised error aborts construction
before any provider, role or policy value is produced (the error branch
carries no partial output). -/
theorem configuration_error_iff_invalid (githubOwner repoName : Option String)
    (env : List (String × String)) (account region : Option String)
    (oidcProviderArn accountId regionTok : String) :
    isError (githubOIDCStack githubOwner repoName env account region
        oidcProviderArn accountId regionTok) =
      ((resolveGithubOwner githubOwner env).isEmpty ||
       (resolveRepoName repoName env).isEmpty ||
       pyInStr '/' (resolveGithubOwner githubOwner env) ||
       pyInStr '/' (resolveRepoName repoName env) ||
       pyFalsy account || pyFalsy region) := by
  rw [← validate_error_iff (resolveGithubOwner githubOwner env)
        (resolveRepoName repoName env) account region]
  simp only [githubOIDCStack]
  cases hv : validateConfiguration (resolveGithubOwner githubOwner env)
      (resolveRepoName repoName env) account region <;>
    simp [hv, isError]

end Infiquetra
